import Mathlib

/-!
Shallow embedding of the module resolution core of please-bundle
(`src/main.rs`): package manifest entry point loading
(`load_package_entrypoint`), package registry construction (the fold in
`main`), and the swc `Resolve` / `Load` adapter implementations
(`Resolver::resolve`, `Loader::load`). Filesystem access and JSON / ES
module parsing are modelled as an explicit environment record of oracles;
all control flow is translated directly from the Rust source. A process
abort (`unwrap` on a failed result, `unreachable!`) is distinguished from
a returned `Err` by the `Outcome` type.
-/

set_option autoImplicit false

/-- Model of a Rust `PathBuf`: whether the path is absolute (starts with
the root separator) together with its components in order. -/
structure FsPath where
  absolute : Bool
  components : List String
deriving DecidableEq

/-- Model of `Path::is_relative` (on Unix: not absolute). -/
def FsPath.isRelative (p : FsPath) : Bool :=
  !p.absolute

/-- Model of `Path::join`: an absolute right-hand side replaces the whole
path, otherwise the components are appended. -/
def FsPath.join (p q : FsPath) : FsPath :=
  if q.absolute then q else ⟨p.absolute, p.components ++ q.components⟩

/-- Model of `Path::parent`: drops the last component; the root path and
the empty path have no parent. -/
def FsPath.parent (p : FsPath) : Option FsPath :=
  match p.components with
  | [] => none
  | _ :: _ => some ⟨p.absolute, p.components.dropLast⟩

/-- Split a character list on the path separator, keeping the nonempty
components; `cur` accumulates the current component in reverse. -/
def pathComponents : List Char → List Char → List String
  | [], cur => if cur = [] then [] else [String.mk cur.reverse]
  | c :: cs, cur =>
    if c = '/' then
      if cur = [] then pathComponents cs []
      else String.mk cur.reverse :: pathComponents cs []
    else pathComponents cs (c :: cur)

/-- Model of `PathBuf::from_str` on a specifier string (infallible in the
source): absolute iff the string starts with the separator, components
obtained by splitting on the separator. -/
def parsePath (s : String) : FsPath :=
  ⟨match s.data with
   | '/' :: _ => true
   | _ => false,
   pathComponents s.data []⟩

/-- Model of `swc_common::FileName` as used by the program: `Real` holds a
filesystem path; every non-file variant of the swc enum is collapsed into
`Custom`, which the program never treats as a file. -/
inductive FileName where
  | Real : FsPath → FileName
  | Custom : String → FileName
deriving DecidableEq

/-- Model of `FileName::is_real`: true exactly on `Real`. -/
def FileName.is_real : FileName → Bool
  | .Real _ => true
  | .Custom _ => false

/-- Model of the serde struct `ExportConfig`: optional `import` and
`default` condition targets. The fields are spelled `importEntry` and
`defaultEntry` because `import` is reserved in Lean. -/
structure ExportConfig where
  importEntry : Option String
  defaultEntry : Option String
deriving DecidableEq

/-- Model of the serde struct `PackageJson`: optional `name`, the legacy
entry point fields `main`, `browser`, `module` (spelled `moduleField`),
and the optional `exports` map, kept as an association list in the
iteration order of the Rust `HashMap`. -/
structure PackageJson where
  name : Option String
  main : Option String
  browser : Option String
  moduleField : Option String
  exports : Option (List (String × ExportConfig))
deriving DecidableEq

/-- Result of running a fragment of the program: a value, a returned
`Err`, or a process abort (`unwrap` on a failed result, `unreachable!`,
an out-of-bounds string slice). -/
inductive Outcome (α : Type) where
  | ok : α → Outcome α
  | err : String → Outcome α
  | panic : String → Outcome α
deriving DecidableEq

/-- Environment of effectful operations the program performs: path
canonicalization (`None` models an `Err` from the OS), path existence
checks, reading a file to a string, parsing manifest JSON, loading a
source file into the swc source map, and parsing a loaded file as an ES
module (`none` models a parse failure, which the source turns into a
panic). -/
structure Env where
  canonicalize : FsPath → Option FsPath
  pathExists : FsPath → Bool
  readToString : FsPath → Except String String
  parseManifest : String → Except String PackageJson
  loadFile : FsPath → Except String String
  parseModule : String → Option String

/-- Model of `[a, b, ...].iter().find(|x| x.is_some())` followed by the
`Some(Some(e))` pattern match: the first present option, if any. -/
def firstSome {α : Type} : List (Option α) → Option α
  | [] => none
  | some x :: _ => some x
  | none :: rest => firstSome rest

/-- Model of `iter().map(f).collect::<Result<Vec<_>, _>>()` with panics
propagated: items are processed left to right and the first `Err` or
panic stops the traversal. -/
def collectOutcomes {α β : Type} (f : α → Outcome β) : List α → Outcome (List β)
  | [] => .ok []
  | x :: xs =>
    match f x with
    | .ok y =>
      match collectOutcomes f xs with
      | .ok ys => .ok (y :: ys)
      | .err e => .err e
      | .panic m => .panic m
    | .err e => .err e
    | .panic m => .panic m

/-- Model of the exported-name computation in `load_package_entrypoint`:
`name.clone()` followed by `push_str(&export_name[1..])`. Rust byte
slicing panics when byte index 1 is past the end of the string (empty
key) or falls inside a character (multi-byte first character); otherwise
the first character is dropped and the rest is appended to the package
name verbatim. -/
def fullExportName (name key : String) : Outcome String :=
  match key.data with
  | [] => .panic "byte index 1 is out of bounds"
  | c :: rest =>
    if c.utf8Size = 1 then .ok (name ++ String.mk rest)
    else .panic "byte index 1 is not a char boundary"

/-- Model of the part of `load_package_entrypoint` that runs after the
manifest has been parsed and the package directory extracted: the `name`
check, the exports-map branch (which selects `import` before `default`,
canonicalizes with `.unwrap()` — a panic on failure — and slices the key
from byte 1), and the legacy branch (priority `browser`, `module`,
`main`, canonicalization failure propagated with the question mark
operator as a returned error). -/
def loadEntrypoints (env : Env) (package_dir : FsPath) (pkg : PackageJson) :
    Outcome (List (String × FileName)) :=
  match pkg.name with
  | none => .err "no name for js package"
  | some name =>
    match pkg.exports with
    | some exports =>
      collectOutcomes (fun ec =>
        match firstSome [ec.2.importEntry, ec.2.defaultEntry] with
        | some entrypoint =>
          match env.canonicalize (package_dir.join (parsePath entrypoint)) with
          | none => .panic "called unwrap on an Err value"
          | some full =>
            match fullExportName name ec.1 with
            | .ok exportName => .ok (exportName, FileName.Real full)
            | .err e => .err e
            | .panic m => .panic m
        | none => .err "no entrypoint is set") exports
    | none =>
      match firstSome [pkg.browser, pkg.moduleField, pkg.main] with
      | some entrypoint =>
        match env.canonicalize (package_dir.join (parsePath entrypoint)) with
        | none => .err "canonicalize failed"
        | some full => .ok [(name, FileName.Real full)]
      | none => .err "no entrypoint is set"

/-- Model of the whole of `load_package_entrypoint`: open and read the
manifest file (IO failures propagated as errors), parse it as JSON,
extract the package directory, then compute the entry points. -/
def load_package_entrypoint (env : Env) (path : FsPath) :
    Outcome (List (String × FileName)) :=
  match env.readToString path with
  | .error e => .err e
  | .ok contents =>
    match env.parseManifest contents with
    | .error e => .err e
    | .ok pkg =>
      match path.parent with
      | none => .err "no package directory"
      | some dir => loadEntrypoints env dir pkg

/-- Association list lookup, modelling `HashMap::contains_key` plus
indexing for the package registry. -/
def lookupAssoc {α : Type} : List (String × α) → String → Option α
  | [], _ => none
  | (k, v) :: rest, key => if k = key then some v else lookupAssoc rest key

/-- Association list insert, modelling `HashMap::insert`: replaces the
value of an existing key, otherwise appends. -/
def insertAssoc {α : Type} : List (String × α) → String → α → List (String × α)
  | [], key, v => [(key, v)]
  | (k, v') :: rest, key, v =>
    if k = key then (key, v) :: rest else (k, v') :: insertAssoc rest key v

/-- Model of the body of the registry fold in `main`: insert every entry
returned by `load_package_entrypoint` into the map. -/
def insertAll (map : List (String × FileName)) (entries : List (String × FileName)) :
    List (String × FileName) :=
  entries.foldl (fun m e => insertAssoc m e.1 e.2) map

/-- Model of the `try_fold` in `main` over the filtered manifest paths:
the first failing manifest aborts the whole fold. -/
def registryFold (env : Env) : List FsPath → List (String × FileName) →
    Outcome (List (String × FileName))
  | [], map => .ok map
  | path :: rest, map =>
    match load_package_entrypoint env path with
    | .ok entries => registryFold env rest (insertAll map entries)
    | .err e => .err e
    | .panic m => .panic m

/-- Model of the package registry construction in `main`: join each
configured package directory with `package.json`, keep only the paths
that exist on disk, and fold `load_package_entrypoint` over them. -/
def buildPackages (env : Env) (packageDirs : List FsPath) :
    Outcome (List (String × FileName)) :=
  registryFold env
    ((packageDirs.map (fun d => d.join (parsePath "package.json"))).filter
      (fun p => env.pathExists p)) []

/-- Model of the `Resolver` struct: the package registry built in
`main`. -/
structure Resolver where
  packages : List (String × FileName)

/-- Model of `Resolver::resolve` for the swc `Resolve` trait: registry
lookup first, then the base must be a real file, then the specifier is
interpreted as a path — relative paths are joined to the parent of the
base and canonicalized (failure returned as an error), absolute paths
are returned as `Real` unchanged. No branch of this function panics, so
its result is an `Except`. -/
def Resolver.resolve (env : Env) (r : Resolver) (base : FileName)
    (module_specifier : String) : Except String FileName :=
  match lookupAssoc r.packages module_specifier with
  | some f => .ok f
  | none =>
    if !base.is_real then
      .error "base is not a real file"
    else
      let path := parsePath module_specifier
      if path.isRelative then
        match base with
        | FileName.Real base_path =>
          match base_path.parent with
          | none => .error "base does not have a parent"
          | some base_dir_path =>
            match env.canonicalize (base_dir_path.join path) with
            | none => .error "unresolved relative path"
            | some full_path => .ok (FileName.Real full_path)
        | FileName.Custom _ => .error "base is not a real file"
      else
        .ok (FileName.Real path)

/-- Model of the data swc hands back from a loaded module: the file
contents and the parsed module (both opaque strings here). -/
structure ModuleData where
  fm : String
  moduleField : String
deriving DecidableEq

/-- Model of `Loader::load` for the swc `Load` trait: a `Real` file name
is loaded from disk (IO failure propagated as an error) and parsed as an
ES module (parse failure is a panic in the source); every other file
name hits the `unreachable!()` arm and aborts the process. -/
def Loader.load (env : Env) (f : FileName) : Outcome ModuleData :=
  match f with
  | FileName.Real path =>
    match env.loadFile path with
    | .error e => .err e
    | .ok fm =>
      match env.parseModule fm with
      | none => .panic "failed to parse"
      | some m => .ok ⟨fm, m⟩
  | FileName.Custom _ => .panic "internal error: entered unreachable code"

/-- Environment in which every filesystem operation fails; concrete
scenarios override only the fields they need. -/
def emptyEnv : Env where
  canonicalize := fun _ => none
  pathExists := fun _ => false
  readToString := fun _ => .error "io error"
  parseManifest := fun _ => .error "parse error"
  loadFile := fun _ => .error "io error"
  parseModule := fun _ => none

/-- Environment in which every path canonicalizes to itself and every
path exists: a filesystem where any mentioned file is present. -/
def envAllExists : Env :=
  { emptyEnv with canonicalize := fun p => some p, pathExists := fun _ => true }

/-- Registered entry point of the example package leftpad. -/
def leftpadIdx : FsPath := ⟨true, ["pkgs", "leftpad", "index.js"]⟩

/-- Registry holding only the example package leftpad. -/
def leftpadResolver : Resolver := ⟨[("leftpad", FileName.Real leftpadIdx)]⟩

/-- An importing file; under `envAllExists` a sibling file named leftpad
exists next to it. -/
def importerBase : FileName := FileName.Real ⟨true, ["proj", "main.js"]⟩

/-- Directory of the example package pkg. -/
def dirPkg : FsPath := ⟨true, ["pkgs", "pkg"]⟩

/-- Manifest with all three legacy fields set and no exports map. -/
def pkgAllLegacy : PackageJson :=
  ⟨some "pkg", some "main.js", some "browser.js", some "module.js", none⟩

/-- Canonical path of the root export of the example exports manifest. -/
def idxCanon : FsPath := ⟨true, ["pkgs", "pkg", "idx.js"]⟩

/-- Canonical path of the sub export of the example exports manifest. -/
def subCanon : FsPath := ⟨true, ["pkgs", "pkg", "sub.js"]⟩

/-- Environment whose canonicalization knows exactly the two export
targets of the example exports manifest. -/
def envExportsExample : Env :=
  { emptyEnv with canonicalize := fun p =>
      if p = dirPkg.join (parsePath "./idx.js") then some idxCanon
      else if p = dirPkg.join (parsePath "./sub.js") then some subCanon
      else none }

/-- The exports-map example manifest from the specification. -/
def pkgExportsExample : PackageJson :=
  ⟨some "pkg", none, none, none,
    some [(".", ⟨some "./idx.js", none⟩), ("./sub", ⟨none, some "./sub.js"⟩)]⟩

/-- An importing file at /proj/src/main.js. -/
def mainJs : FsPath := ⟨true, ["proj", "src", "main.js"]⟩

/-- Canonical path of /proj/src/util.js. -/
def utilCanon : FsPath := ⟨true, ["proj", "src", "util.js"]⟩

/-- Environment in which only ./util.js next to `mainJs` canonicalizes. -/
def envRelExample : Env :=
  { emptyEnv with canonicalize := fun p =>
      if p = FsPath.join ⟨true, ["proj", "src"]⟩ (parsePath "./util.js") then some utilCanon
      else none }

/-- Manifest whose single export target cannot be canonicalized. -/
def pkgBrokenExport : PackageJson :=
  ⟨some "pkg", none, none, none, some [(".", ⟨some "./missing.js", none⟩)]⟩

/-- Environment that can load and parse exactly one file. -/
def envLoadExample : Env :=
  { emptyEnv with
      loadFile := fun p => if p = utilCanon then .ok "code" else .error "io error",
      parseModule := fun s => if s = "code" then some "mod" else none }

/-- Manifest with a name, a present-but-empty exports map, and main set. -/
def pkgEmptyExports : PackageJson :=
  ⟨some "pkg", some "main.js", none, none, some []⟩

/-- Directory of a configured package. -/
def dirLeftpad : FsPath := ⟨true, ["pkgs", "leftpad"]⟩

/-- Environment in which the leftpad manifest exists but cannot be
read. -/
def envManifestUnreadable : Env :=
  { emptyEnv with pathExists := fun p =>
      if p = dirLeftpad.join (parsePath "package.json") then true else false }

/-- Manifest whose exports map has the empty string as its only key. -/
def pkgEmptyKey : PackageJson :=
  ⟨some "pkg", none, none, none, some [("", ⟨some "x.js", none⟩)]⟩

/-- C1: if the specifier is exactly a key of the package registry,
`Resolver.resolve` returns the registered file identity immediately, for
every environment and every base — in particular independently of any
same-named file existing relative to the base. -/
theorem resolve_registry_first (env : Env) (r : Resolver) (base : FileName)
    (specifier : String) (f : FileName)
    (h : lookupAssoc r.packages specifier = some f) :
    Resolver.resolve env r base specifier = Except.ok f := by
  simp only [Resolver.resolve, h]

/-- C1 witness: the registered leftpad entry point wins even in a
filesystem where every path — the same-named sibling file included —
exists and canonicalizes. -/
theorem resolve_registry_first_witness :
    Resolver.resolve envAllExists leftpadResolver importerBase "leftpad" =
      Except.ok (FileName.Real leftpadIdx) :=
  resolve_registry_first envAllExists leftpadResolver importerBase "leftpad"
    (FileName.Real leftpadIdx) (by decide)

/-- C2: with a name and no exports map, the legacy branch picks the
first present field in priority order browser, module, main — so with
browser set the other two are irrelevant — emits the single pair of the
package name and the canonicalized target, and fails when none of the
three fields is present. -/
theorem legacy_priority (env : Env) (dir : FsPath) (pkg : PackageJson) (n : String)
    (hn : pkg.name = some n) (hx : pkg.exports = none) :
    (∀ b full, pkg.browser = some b →
      env.canonicalize (dir.join (parsePath b)) = some full →
      loadEntrypoints env dir pkg = Outcome.ok [(n, FileName.Real full)]) ∧
    (∀ m full, pkg.browser = none → pkg.moduleField = some m →
      env.canonicalize (dir.join (parsePath m)) = some full →
      loadEntrypoints env dir pkg = Outcome.ok [(n, FileName.Real full)]) ∧
    (∀ m full, pkg.browser = none → pkg.moduleField = none → pkg.main = some m →
      env.canonicalize (dir.join (parsePath m)) = some full →
      loadEntrypoints env dir pkg = Outcome.ok [(n, FileName.Real full)]) ∧
    (pkg.browser = none → pkg.moduleField = none → pkg.main = none →
      loadEntrypoints env dir pkg = Outcome.err "no entrypoint is set") := by
  refine ⟨?_, ?_, ?_, ?_⟩
  · intro b full hb hc
    simp only [loadEntrypoints, hn, hx, hb, firstSome, hc]
  · intro m full hb hm hc
    simp only [loadEntrypoints, hn, hx, hb, hm, firstSome, hc]
  · intro m full hb hmod hm hc
    simp only [loadEntrypoints, hn, hx, hb, hmod, hm, firstSome, hc]
  · intro hb hmod hm
    simp only [loadEntrypoints, hn, hx, hb, hmod, hm, firstSome]

/-- C2 witness: with browser, module and main all set, the resolved
entry point is the browser target. -/
theorem legacy_priority_witness :
    loadEntrypoints envAllExists dirPkg pkgAllLegacy =
      Outcome.ok [("pkg", FileName.Real (dirPkg.join (parsePath "browser.js")))] :=
  (legacy_priority envAllExists dirPkg pkgAllLegacy "pkg" rfl rfl).1
    "browser.js" (dirPkg.join (parsePath "browser.js")) rfl rfl

/-- C3: the exported name maps the root key to the package name
unchanged and any other dotted key to the name followed by the key
without its leading dot, slash kept verbatim; the two-entry example
manifest registers exactly the two keys pkg and pkg/sub, mapped to the
canonical paths of idx.js and sub.js. -/
theorem export_name_law (name : String) (rest : List Char) :
    fullExportName name "." = Outcome.ok name ∧
    fullExportName name (String.mk ('.' :: rest)) = Outcome.ok (name ++ String.mk rest) ∧
    loadEntrypoints envExportsExample dirPkg pkgExportsExample =
      Outcome.ok [("pkg", FileName.Real idxCanon), ("pkg/sub", FileName.Real subCanon)] := by
  refine ⟨?_, ?_, ?_⟩
  · show Outcome.ok (name ++ "") = Outcome.ok name
    rw [String.append_empty]
  · rfl
  · decide

/-- C4: a specifier absent from the registry that parses as a relative
path is joined to the parent directory of the concrete base and
canonicalized; success yields exactly the canonical path, and
canonicalization failure yields an error with no partial result. -/
theorem resolve_relative (env : Env) (r : Resolver) (base_path base_dir : FsPath)
    (specifier : String)
    (hlk : lookupAssoc r.packages specifier = none)
    (hrel : (parsePath specifier).isRelative = true)
    (hpar : base_path.parent = some base_dir) :
    (∀ full, env.canonicalize (base_dir.join (parsePath specifier)) = some full →
      Resolver.resolve env r (FileName.Real base_path) specifier =
        Except.ok (FileName.Real full)) ∧
    (env.canonicalize (base_dir.join (parsePath specifier)) = none →
      Resolver.resolve env r (FileName.Real base_path) specifier =
        Except.error "unresolved relative path") := by
  constructor
  · intro full hc
    simp [Resolver.resolve, hlk, FileName.is_real, hrel, hpar, hc]
  · intro hc
    simp [Resolver.resolve, hlk, FileName.is_real, hrel, hpar, hc]

/-- C4 witness: ./util.js next to /proj/src/main.js resolves to the
canonical /proj/src/util.js when it exists, and errors in the
environment where nothing canonicalizes. -/
theorem resolve_relative_witness :
    Resolver.resolve envRelExample ⟨[]⟩ (FileName.Real mainJs) "./util.js" =
      Except.ok (FileName.Real utilCanon) ∧
    Resolver.resolve emptyEnv ⟨[]⟩ (FileName.Real mainJs) "./util.js" =
      Except.error "unresolved relative path" :=
  ⟨(resolve_relative envRelExample ⟨[]⟩ mainJs ⟨true, ["proj", "src"]⟩ "./util.js"
      rfl (by decide) (by decide)).1 utilCanon (by decide),
   (resolve_relative emptyEnv ⟨[]⟩ mainJs ⟨true, ["proj", "src"]⟩ "./util.js"
      rfl (by decide) (by decide)).2 rfl⟩

/-- C5: a specifier absent from the registry that parses as an absolute
path is returned wrapped as a real file unchanged, in every environment —
no existence check, no canonicalization — so this branch never fails. -/
theorem resolve_absolute (env : Env) (r : Resolver) (base_path : FsPath)
    (specifier : String)
    (hlk : lookupAssoc r.packages specifier = none)
    (habs : (parsePath specifier).isRelative = false) :
    Resolver.resolve env r (FileName.Real base_path) specifier =
      Except.ok (FileName.Real (parsePath specifier)) := by
  simp [Resolver.resolve, hlk, habs, FileName.is_real]

/-- C5 witness: an absolute specifier resolves even in the environment
where nothing exists and nothing canonicalizes. -/
theorem resolve_absolute_witness :
    Resolver.resolve emptyEnv ⟨[]⟩ (FileName.Real mainJs) "/abs/lib.js" =
      Except.ok (FileName.Real (parsePath "/abs/lib.js")) :=
  resolve_absolute emptyEnv ⟨[]⟩ mainJs "/abs/lib.js" rfl (by decide)

/-- C6 counterexample: when the single export target of a manifest
cannot be canonicalized, entry point loading aborts with a panic (the
`unwrap` in the exports branch), not with a returned error. -/
theorem export_unresolved_panics :
    loadEntrypoints emptyEnv dirPkg pkgBrokenExport =
      Outcome.panic "called unwrap on an Err value" := by decide

/-- C6 amended: an exports-map subpath whose selected target fails to
canonicalize makes `load_package_entrypoint` panic via `unwrap` — the
run still aborts, but as a crash rather than a handled error value. -/
theorem export_unresolved_unwrap (env : Env) (dir : FsPath) (pkg : PackageJson)
    (n key e : String) (cfg : ExportConfig) (rest : List (String × ExportConfig))
    (hn : pkg.name = some n)
    (hx : pkg.exports = some ((key, cfg) :: rest))
    (hsel : firstSome [cfg.importEntry, cfg.defaultEntry] = some e)
    (hc : env.canonicalize (dir.join (parsePath e)) = none) :
    loadEntrypoints env dir pkg = Outcome.panic "called unwrap on an Err value" := by
  simp only [loadEntrypoints, hn, hx, collectOutcomes, hsel, hc]

/-- C6 amended witness: the broken single-export manifest panics in the
environment where nothing canonicalizes. -/
theorem export_unresolved_unwrap_witness :
    loadEntrypoints emptyEnv dirPkg pkgBrokenExport =
      Outcome.panic "called unwrap on an Err value" :=
  export_unresolved_unwrap emptyEnv dirPkg pkgBrokenExport "pkg" "." "./missing.js"
    ⟨some "./missing.js", none⟩ [] rfl rfl rfl rfl

/-- C7 counterexample: loading a non-real file identity aborts the
process through the `unreachable` arm instead of returning a typed
error. -/
theorem load_virtual_panics :
    Loader.load emptyEnv (FileName.Custom "virtual") =
      Outcome.panic "internal error: entered unreachable code" := rfl

/-- C7 amended: only a real file identity is mapped to file bytes; every
non-real identity hits the `unreachable` arm and panics rather than
producing a handled error value. -/
theorem load_real_only (env : Env) :
    (∀ s, Loader.load env (FileName.Custom s) =
      Outcome.panic "internal error: entered unreachable code") ∧
    (∀ p bytes m, env.loadFile p = Except.ok bytes → env.parseModule bytes = some m →
      Loader.load env (FileName.Real p) = Outcome.ok ⟨bytes, m⟩) := by
  constructor
  · intro s
    rfl
  · intro p bytes m h1 h2
    simp only [Loader.load, h1, h2]

/-- C7 amended witness: the environment that can load one file panics on
a virtual identity and loads the real one. -/
theorem load_real_only_witness :
    Loader.load envLoadExample (FileName.Custom "virtual") =
      Outcome.panic "internal error: entered unreachable code" ∧
    Loader.load envLoadExample (FileName.Real utilCanon) =
      Outcome.ok ⟨"code", "mod"⟩ :=
  ⟨(load_real_only envLoadExample).1 "virtual",
   (load_real_only envLoadExample).2 utilCanon "code" "mod" rfl (by decide)⟩

/-- C8 counterexample: a manifest with a name, a present-but-empty
exports map and main set yields the empty entry point list — the exports
branch is taken, not the legacy branch. -/
theorem empty_exports_counterexample :
    loadEntrypoints envAllExists dirPkg pkgEmptyExports = Outcome.ok [] := rfl

/-- C8 amended: legacy fields are ignored whenever the exports map is
present, even when it is empty; a present-but-empty exports map yields
the empty list of entry points regardless of main. -/
theorem empty_exports_branch (env : Env) (dir : FsPath) (pkg : PackageJson) (n : String)
    (hn : pkg.name = some n) (hx : pkg.exports = some []) :
    loadEntrypoints env dir pkg = Outcome.ok [] := by
  simp only [loadEntrypoints, hn, hx, collectOutcomes]

/-- C8 amended witness: the empty-exports manifest with main set yields
no entry points even in the filesystem where every path exists. -/
theorem empty_exports_branch_witness :
    loadEntrypoints envAllExists dirPkg pkgEmptyExports = Outcome.ok [] :=
  empty_exports_branch envAllExists dirPkg pkgEmptyExports "pkg" rfl rfl

/-- C9 counterexample: a configured package directory whose manifest
file does not exist is silently filtered out — registry construction
succeeds with an empty registry instead of failing with a read error. -/
theorem missing_manifest_skipped :
    buildPackages emptyEnv [dirLeftpad] = Outcome.ok [] := rfl

/-- C9 amended: a directory whose manifest file does not exist is
silently skipped by the existence filter; a manifest file that exists
but cannot be read aborts registry construction as a whole with the read
error and no partial registry. -/
theorem registry_build_behavior (env : Env) (d : FsPath) (rest : List FsPath)
    (e : String) :
    (env.pathExists (d.join (parsePath "package.json")) = false →
      buildPackages env (d :: rest) = buildPackages env rest) ∧
    (env.pathExists (d.join (parsePath "package.json")) = true →
      env.readToString (d.join (parsePath "package.json")) = Except.error e →
      buildPackages env (d :: rest) = Outcome.err e) := by
  constructor
  · intro h
    simp [buildPackages, h]
  · intro h1 h2
    simp [buildPackages, h1, registryFold, load_package_entrypoint, h2]

/-- C9 amended witness: the unreadable-but-existing manifest aborts the
whole build, while the missing manifest is skipped. -/
theorem registry_build_behavior_witness :
    buildPackages envManifestUnreadable [dirLeftpad] = Outcome.err "io error" ∧
    buildPackages emptyEnv [dirLeftpad] = buildPackages emptyEnv [] :=
  ⟨(registry_build_behavior envManifestUnreadable dirLeftpad [] "io error").2
      (by decide) rfl,
   (registry_build_behavior emptyEnv dirLeftpad [] "io error").1 rfl⟩

/-- C10: the exported-name computation slices the exports key from byte
index 1, so it returns a value exactly when the first character of the
key occupies one byte; an empty key or a multi-byte first character
panics, and the panic propagates out of entry point loading, as the
empty-key manifest shows. -/
theorem export_key_slice (name key : String) :
    (key = "" → fullExportName name key = Outcome.panic "byte index 1 is out of bounds") ∧
    (∀ c rest, key.data = c :: rest → c.utf8Size ≠ 1 →
      fullExportName name key = Outcome.panic "byte index 1 is not a char boundary") ∧
    (∀ c rest, key.data = c :: rest → c.utf8Size = 1 →
      fullExportName name key = Outcome.ok (name ++ String.mk rest)) ∧
    loadEntrypoints envAllExists dirPkg pkgEmptyKey =
      Outcome.panic "byte index 1 is out of bounds" := by
  refine ⟨?_, ?_, ?_, ?_⟩
  · intro h
    subst h
    rfl
  · intro c rest hd hsz
    simp only [fullExportName, hd, if_neg hsz]
  · intro c rest hd hsz
    simp only [fullExportName, hd, if_pos hsz]
  · rfl

/-- C10 witness: the empty key is out of bounds and a key starting with
a two-byte character is not sliced at a character boundary. -/
theorem export_key_slice_witness :
    fullExportName "pkg" "" = Outcome.panic "byte index 1 is out of bounds" ∧
    fullExportName "pkg" "é" = Outcome.panic "byte index 1 is not a char boundary" :=
  ⟨(export_key_slice "pkg" "").1 rfl,
   (export_key_slice "pkg" "é").2.1 'é' [] rfl (by decide)⟩
